import Mathlib

/-!
Shallow embedding of src/withdrawal_tax_estimator.py over exact rational
arithmetic.  Definitions mirror the Python source line by line; theorems
settle the frozen claims about the spec.
-/

namespace WithdrawalTax

/-- Mirrors STANDARD_DEDUCTION (line 112). -/
def STANDARD_DEDUCTION : ℚ := 16100

/-- Mirrors CG_0pct_limit_single (line 126). -/
def CG_0pct_limit_single : ℚ := 49450

/-- Mirrors CG_15pct_limit_single (line 127). -/
def CG_15pct_limit_single : ℚ := 545500

/-- Mirrors ORDINARY_BRACKETS (lines 115-123): (upper bound or none, marginal rate). -/
def ORDINARY_BRACKETS : List (Option ℚ × ℚ) :=
  [(some 12400, 1/10), (some 50400, 12/100), (some 105700, 22/100),
   (some 201775, 24/100), (some 256225, 32/100), (some 640600, 35/100),
   (none, 37/100)]

/-- Mirrors the bracket-walking loop of ordinary_tax_on_amount (lines 139-149):
arguments are the remaining bracket list, the amount, the running lower bound
and the accumulated tax; the loop breaks at the unbounded bracket or once the
amount fits under the current upper bound. -/
def taxLoop : List (Option ℚ × ℚ) → ℚ → ℚ → ℚ → ℚ
  | [], _amount, _lower, tax => tax
  | (none, rate) :: _rest, amount, lower, tax =>
      if amount - lower > 0 then tax + (amount - lower) * rate else tax
  | (some u, rate) :: rest, amount, lower, tax =>
      let taxable_here := max 0 (min amount u - lower)
      let tax' := if taxable_here > 0 then tax + taxable_here * rate else tax
      if amount ≤ u then tax' else taxLoop rest amount u tax'

/-- Mirrors ordinary_tax_on_amount (lines 131-150). -/
def ordinary_tax_on_amount (taxable_amount : ℚ) : ℚ :=
  if taxable_amount ≤ 0 then 0
  else taxLoop ORDINARY_BRACKETS taxable_amount 0 0

/-- Mirrors capital_gains_tax_for_qualified (lines 153-179). -/
def capital_gains_tax_for_qualified (q_amount ordinary_income_after_deduction : ℚ) : ℚ :=
  if q_amount ≤ 0 then 0
  else
    let remaining := q_amount
    let cap0_space := max 0 (CG_0pct_limit_single - ordinary_income_after_deduction)
    let take0 := min remaining cap0_space
    let remaining1 := remaining - take0
    let already := ordinary_income_after_deduction + take0
    let cap15_space := max 0 (CG_15pct_limit_single - already)
    let take15 := min remaining1 cap15_space
    let tax := take15 * (15/100)
    let remaining2 := remaining1 - take15
    if remaining2 > 0 then tax + remaining2 * (20/100) else tax

/-- Mirrors taxable_social_security (lines 182-201). -/
def taxable_social_security (ordinary_income ss_annual : ℚ) : ℚ :=
  if ss_annual ≤ 0 then 0
  else
    let provisional := ordinary_income + (1/2) * ss_annual
    if provisional ≤ 25000 then 0
    else if provisional ≤ 34000 then (1/2) * (provisional - 25000)
    else
      let taxable := (85/100) * ss_annual - max 0 ((85/100) * (34000 - 25000))
      min taxable ((85/100) * ss_annual)

/-- Mirrors infer_dividend_type (lines 101-108): a Python dict argument is
modelled as an optional association list; None and the empty dict are falsy. -/
def infer_dividend_type (divhist : Option (List (ℚ × ℚ))) : String :=
  match divhist with
  | some l => if l.isEmpty then "ordinary" else "qualified"
  | none => "ordinary"

/-- Python str.upper over the character list (ASCII case mapping). -/
def strUpper (s : String) : String := ⟨s.data.map Char.toUpper⟩

/-- Python str.lower over the character list (ASCII case mapping). -/
def strLower (s : String) : String := ⟨s.data.map Char.toLower⟩

/-- Python str.strip: removes leading and trailing spaces. -/
def strStrip (s : String) : String :=
  ⟨((s.data.dropWhile (· = ' ')).reverse.dropWhile (· = ' ')).reverse⟩

/-- Helper for the Python idiom (s or default): None and the empty string fall
back to the default. -/
def strOrDefault (s? : Option String) (d : String) : String :=
  match s? with
  | some s => if s = "" then d else s
  | none => d

/-- Mirrors the dividend-tax-type resolution inside estimate_with_lookup
(lines 276-282): with a yield override the default is ordinary, otherwise the
default is qualified; an explicit value is lower-cased and kept. -/
def resolve_dividend_tax_type (explicit? : Option String) (yield_override? : Option ℚ) :
    String :=
  match yield_override? with
  | some _ => strLower (strOrDefault explicit? "ordinary")
  | none => strLower (strOrDefault explicit? "qualified")

/-- The result dict of estimate_with_lookup (lines 355-371), restricted to the
numeric fields the tax engine produces. -/
structure TaxResult where
  ss_annual : ℚ
  ss_taxable : ℚ
  taxable_ordinary : ℚ
  taxable_ordinary_with_ss : ℚ
  magi : ℚ
  ordinary_after_deduction : ℚ
  ordinary_tax : ℚ
  qualified_dividend_tax : ℚ
  capital_gains_tax_amount : ℚ
  capg_tax : ℚ
  federal_tax : ℚ
  taxable_withdrawals_annual : ℚ
  effective_rate : ℚ
  standard_deduction_used : ℚ
deriving DecidableEq

/-- Mirrors the tax portion of estimate_with_lookup (lines 310-353 and 370),
taking the aggregated buckets: total deferred income, brokerage ordinary,
brokerage qualified, brokerage capital gains and the monthly benefit. -/
def compute_tax (deferred brokerage_ordinary brokerage_qualified
    brokerage_capital_gains ss_monthly : ℚ) : TaxResult :=
  let ss_annual := ss_monthly * 12
  let taxable_ordinary := deferred + brokerage_ordinary
  let ss_taxable := taxable_social_security taxable_ordinary ss_annual
  let taxable_ordinary_with_ss := taxable_ordinary + ss_taxable
  let magi := taxable_ordinary + brokerage_qualified + brokerage_capital_gains
  let ordinary_after_deduction := max 0 (taxable_ordinary_with_ss - STANDARD_DEDUCTION)
  let ordinary_tax := ordinary_tax_on_amount ordinary_after_deduction
  let qualified_dividend_tax :=
    capital_gains_tax_for_qualified brokerage_qualified ordinary_after_deduction
  let ordinary_plus_q := ordinary_after_deduction + brokerage_qualified
  let capital_gains_tax_amount :=
    capital_gains_tax_for_qualified brokerage_capital_gains ordinary_plus_q
  let capg_tax := qualified_dividend_tax + capital_gains_tax_amount
  let federal_tax := ordinary_tax + capg_tax
  let taxable_withdrawals_annual :=
    deferred + brokerage_ordinary + brokerage_qualified + brokerage_capital_gains + ss_taxable
  let effective_rate :=
    if taxable_withdrawals_annual > 0 then federal_tax / taxable_withdrawals_annual else 0
  ⟨ss_annual, ss_taxable, taxable_ordinary, taxable_ordinary_with_ss, magi,
   ordinary_after_deduction, ordinary_tax, qualified_dividend_tax,
   capital_gains_tax_amount, capg_tax, federal_tax, taxable_withdrawals_annual,
   effective_rate, min STANDARD_DEDUCTION taxable_ordinary_with_ss⟩

/-- The lookup collaborator's per-ticker record (price, dividend history);
dividend history entries are (timestamp, amount) pairs with timestamps as
rationals. -/
structure TickerInfo where
  price : Option ℚ
  dividend_history : List (ℚ × ℚ)
deriving DecidableEq

/-- One holding row of the portfolio JSON, with the fields the estimator
reads (lines 228-230, 238, 276). -/
structure Row where
  ticker : String
  account_type : String
  shares : ℚ
  override_yield_pct : Option ℚ
  dividend_tax_type : Option String
deriving DecidableEq

/-- The aggregated income buckets of estimate_with_lookup (lines 222-225). -/
structure Buckets where
  deferred : ℚ
  brokerage_ordinary : ℚ
  brokerage_qualified : ℚ
  brokerage_capital_gains : ℚ
  roth : ℚ
deriving DecidableEq

instance : Add Buckets :=
  ⟨fun a b => ⟨a.deferred + b.deferred, a.brokerage_ordinary + b.brokerage_ordinary,
    a.brokerage_qualified + b.brokerage_qualified,
    a.brokerage_capital_gains + b.brokerage_capital_gains, a.roth + b.roth⟩⟩

/-- Per-holding contribution of the classification loop body (lines 227-302),
with the per-ticker info already looked up and the wall-clock cutoffs
two_years_ago and one_year_ago (derived from Timestamp.now in the source)
passed explicitly.  The steps mirror the source: missing price is fatal; a
falsy (zero) price falls back to 1.0; absent an override the yield comes from
the dividend history trimmed to the last two years and then filtered to the
trailing twelve months; the tax character defaults by presence of the yield
override; income is routed by account type, an unknown account type being
fatal. -/
def row_contrib_info (info : TickerInfo) (two_years_ago one_year_ago : ℚ) (r : Row) :
    Except String Buckets :=
  let ticker := strUpper (strStrip r.ticker)
  let acct := strLower (strStrip r.account_type)
  match info.price with
  | none => .error ("Could not fetch price for " ++ ticker)
  | some p =>
    let price := if p = 0 then 1 else p
    let yield_pct :=
      match r.override_yield_pct with
      | some y => y
      | none =>
        if info.dividend_history.isEmpty then 0
        else
          let div_series := info.dividend_history.filter (fun d => two_years_ago < d.1)
          let recent_divs := div_series.filter (fun d => one_year_ago < d.1)
          if recent_divs.isEmpty = false ∧ 0 < price then
            ((recent_divs.map Prod.snd).sum / price) * 100
          else 0
    let dividend_tax_type := resolve_dividend_tax_type r.dividend_tax_type r.override_yield_pct
    let mv := r.shares * price
    let annual_income := mv * (yield_pct / 100)
    if acct = "deferred" then .ok ⟨annual_income, 0, 0, 0, 0⟩
    else if acct = "brokerage" then
      if dividend_tax_type = "qualified" then .ok ⟨0, 0, annual_income, 0, 0⟩
      else if dividend_tax_type = "capital_gains" then .ok ⟨0, 0, 0, annual_income, 0⟩
      else .ok ⟨0, annual_income, 0, 0, 0⟩
    else if acct = "roth" then .ok ⟨0, 0, 0, 0, annual_income⟩
    else .error ("Unknown account type: " ++ acct)

/-- Per-holding contribution against the lookup collaborator. -/
def row_contrib (lookup : String → TickerInfo) (two_years_ago one_year_ago : ℚ)
    (r : Row) : Except String Buckets :=
  row_contrib_info (lookup (strUpper (strStrip r.ticker))) two_years_ago one_year_ago r

/-- The classification loop (lines 227-302) as a fold over the rows with a
bucket accumulator; the first failing holding aborts the run. -/
def classifyAux (lookup : String → TickerInfo) (two_years_ago one_year_ago : ℚ) :
    List Row → Buckets → Except String Buckets
  | [], b => .ok b
  | r :: rest, b =>
    match row_contrib lookup two_years_ago one_year_ago r with
    | .error e => .error e
    | .ok c => classifyAux lookup two_years_ago one_year_ago rest (b + c)

/-- Classification of a portfolio: the capital-gains bucket starts at the flat
additional LTCG amount (line 225), every other bucket at zero. -/
def classify (lookup : String → TickerInfo) (two_years_ago one_year_ago : ℚ)
    (additional_ltcg : ℚ) (rows : List Row) : Except String Buckets :=
  classifyAux lookup two_years_ago one_year_ago rows ⟨0, 0, 0, additional_ltcg, 0⟩

/-- estimate_with_lookup (lines 214-371): classification followed by the tax
engine. -/
def estimate_with_lookup (lookup : String → TickerInfo) (two_years_ago one_year_ago : ℚ)
    (additional_ltcg ss_monthly : ℚ) (rows : List Row) : Except String TaxResult :=
  match classify lookup two_years_ago one_year_ago additional_ltcg rows with
  | .error e => .error e
  | .ok b => .ok (compute_tax b.deferred b.brokerage_ordinary b.brokerage_qualified
      b.brokerage_capital_gains ss_monthly)

/-! Sum-of-bracket-slices characterization of ordinary_tax_on_amount. -/

/-- The part of the amount x that falls strictly between the bracket bounds l
and u (clamped slice). -/
def slice (l u x : ℚ) : ℚ := min x u - min x l

/-- The bracket loop written as a sum: each bracket contributes its marginal
rate times the slice of the amount within its bounds; the last term is the
slice above the top bounded bracket. -/
def bracketSumForm (x : ℚ) : ℚ :=
  (1/10) * slice 0 12400 x + (12/100) * slice 12400 50400 x
  + (22/100) * slice 50400 105700 x + (24/100) * slice 105700 201775 x
  + (32/100) * slice 201775 256225 x + (35/100) * slice 256225 640600 x
  + (37/100) * (x - min x 640600)

theorem slice_nonneg {l u : ℚ} (h : l ≤ u) (x : ℚ) : 0 ≤ slice l u x := by
  simp only [slice, min_def]
  split_ifs <;> linarith

theorem slice_mono {l u : ℚ} (h : l ≤ u) {x y : ℚ} (hxy : x ≤ y) :
    slice l u x ≤ slice l u y := by
  simp only [slice, min_def]
  split_ifs <;> linarith

theorem top_slice_nonneg (c x : ℚ) : 0 ≤ x - min x c := by
  simp only [min_def]
  split_ifs <;> linarith

theorem top_slice_mono (c : ℚ) {x y : ℚ} (hxy : x ≤ y) :
    x - min x c ≤ y - min y c := by
  simp only [min_def]
  split_ifs <;> linarith

/-- The slices of the seven brackets partition the amount above min x 0. -/
theorem slices_total (z : ℚ) :
    slice 0 12400 z + slice 12400 50400 z + slice 50400 105700 z
      + slice 105700 201775 z + slice 201775 256225 z + slice 256225 640600 z
      + (z - min z 640600) = z - min z 0 := by
  simp only [slice]
  ring

theorem taxLoop_some_le {u amount : ℚ} (h : amount ≤ u) (rate : ℚ)
    (rest : List (Option ℚ × ℚ)) (lower tax : ℚ) :
    taxLoop ((some u, rate) :: rest) amount lower tax =
      if max 0 (min amount u - lower) > 0 then
        tax + max 0 (min amount u - lower) * rate
      else tax := by
  simp [taxLoop, h]

theorem taxLoop_some_gt {u amount : ℚ} (h : ¬ amount ≤ u) (rate : ℚ)
    (rest : List (Option ℚ × ℚ)) (lower tax : ℚ) :
    taxLoop ((some u, rate) :: rest) amount lower tax =
      taxLoop rest amount u
        (if max 0 (min amount u - lower) > 0 then
          tax + max 0 (min amount u - lower) * rate
        else tax) := by
  simp [taxLoop, h]

theorem taxLoop_none_bracket (rate : ℚ) (rest : List (Option ℚ × ℚ))
    (amount lower tax : ℚ) :
    taxLoop ((none, rate) :: rest) amount lower tax =
      if amount - lower > 0 then tax + (amount - lower) * rate else tax := rfl

/-- Folds an accumulated bracket contribution whose slice is known positive. -/
theorem acc_fold {c : ℚ} (h : 0 < c) (tax r : ℚ) :
    (if max 0 c > 0 then tax + max 0 c * r else tax) = tax + c * r := by
  rw [max_eq_right h.le, if_pos h]

/-- ordinary_tax_on_amount agrees with the sum-of-slices form everywhere. -/
theorem ordinary_tax_eq_sumForm (x : ℚ) :
    ordinary_tax_on_amount x = bracketSumForm x := by
  simp only [ordinary_tax_on_amount, bracketSumForm, slice]
  rcases le_or_lt x 0 with h0 | h0
  · rw [if_pos h0, min_eq_left (show x ≤ (12400:ℚ) by linarith),
      min_eq_left (show x ≤ (0:ℚ) by linarith),
      min_eq_left (show x ≤ (50400:ℚ) by linarith),
      min_eq_left (show x ≤ (105700:ℚ) by linarith),
      min_eq_left (show x ≤ (201775:ℚ) by linarith),
      min_eq_left (show x ≤ (256225:ℚ) by linarith),
      min_eq_left (show x ≤ (640600:ℚ) by linarith)]
    ring
  · rw [if_neg (by linarith)]
    simp only [ORDINARY_BRACKETS]
    rw [min_eq_right (show (0:ℚ) ≤ x by linarith)]
    rcases le_or_lt x 12400 with h1 | h1
    · rw [taxLoop_some_le h1, min_eq_left h1,
        min_eq_left (show x ≤ (50400:ℚ) by linarith),
        min_eq_left (show x ≤ (105700:ℚ) by linarith),
        min_eq_left (show x ≤ (201775:ℚ) by linarith),
        min_eq_left (show x ≤ (256225:ℚ) by linarith),
        min_eq_left (show x ≤ (640600:ℚ) by linarith),
        acc_fold (show (0:ℚ) < x - 0 by linarith)]
      ring
    · rw [taxLoop_some_gt (by linarith), min_eq_right (show (12400:ℚ) ≤ x by linarith)]
      rcases le_or_lt x 50400 with h2 | h2
      · rw [taxLoop_some_le h2, min_eq_left h2,
          min_eq_left (show x ≤ (105700:ℚ) by linarith),
          min_eq_left (show x ≤ (201775:ℚ) by linarith),
          min_eq_left (show x ≤ (256225:ℚ) by linarith),
          min_eq_left (show x ≤ (640600:ℚ) by linarith),
          acc_fold (show (0:ℚ) < 12400 - 0 by norm_num),
          acc_fold (show (0:ℚ) < x - 12400 by linarith)]
        ring
      · rw [taxLoop_some_gt (by linarith), min_eq_right (show (50400:ℚ) ≤ x by linarith)]
        rcases le_or_lt x 105700 with h3 | h3
        · rw [taxLoop_some_le h3, min_eq_left h3,
            min_eq_left (show x ≤ (201775:ℚ) by linarith),
            min_eq_left (show x ≤ (256225:ℚ) by linarith),
            min_eq_left (show x ≤ (640600:ℚ) by linarith),
            acc_fold (show (0:ℚ) < 12400 - 0 by norm_num),
            acc_fold (show (0:ℚ) < 50400 - 12400 by norm_num),
            acc_fold (show (0:ℚ) < x - 50400 by linarith)]
          ring
        · rw [taxLoop_some_gt (by linarith),
            min_eq_right (show (105700:ℚ) ≤ x by linarith)]
          rcases le_or_lt x 201775 with h4 | h4
          · rw [taxLoop_some_le h4, min_eq_left h4,
              min_eq_left (show x ≤ (256225:ℚ) by linarith),
              min_eq_left (show x ≤ (640600:ℚ) by linarith),
              acc_fold (show (0:ℚ) < 12400 - 0 by norm_num),
              acc_fold (show (0:ℚ) < 50400 - 12400 by norm_num),
              acc_fold (show (0:ℚ) < 105700 - 50400 by norm_num),
              acc_fold (show (0:ℚ) < x - 105700 by linarith)]
            ring
          · rw [taxLoop_some_gt (by linarith),
              min_eq_right (show (201775:ℚ) ≤ x by linarith)]
            rcases le_or_lt x 256225 with h5 | h5
            · rw [taxLoop_some_le h5, min_eq_left h5,
                min_eq_left (show x ≤ (640600:ℚ) by linarith),
                acc_fold (show (0:ℚ) < 12400 - 0 by norm_num),
                acc_fold (show (0:ℚ) < 50400 - 12400 by norm_num),
                acc_fold (show (0:ℚ) < 105700 - 50400 by norm_num),
                acc_fold (show (0:ℚ) < 201775 - 105700 by norm_num),
                acc_fold (show (0:ℚ) < x - 201775 by linarith)]
              ring
            · rw [taxLoop_some_gt (by linarith),
                min_eq_right (show (256225:ℚ) ≤ x by linarith)]
              rcases le_or_lt x 640600 with h6 | h6
              · rw [taxLoop_some_le h6, min_eq_left h6,
                  acc_fold (show (0:ℚ) < 12400 - 0 by norm_num),
                  acc_fold (show (0:ℚ) < 50400 - 12400 by norm_num),
                  acc_fold (show (0:ℚ) < 105700 - 50400 by norm_num),
                  acc_fold (show (0:ℚ) < 201775 - 105700 by norm_num),
                  acc_fold (show (0:ℚ) < 256225 - 201775 by norm_num),
                  acc_fold (show (0:ℚ) < x - 256225 by linarith)]
                ring
              · rw [taxLoop_some_gt (by linarith),
                  min_eq_right (show (640600:ℚ) ≤ x by linarith),
                  taxLoop_none_bracket,
                  acc_fold (show (0:ℚ) < 12400 - 0 by norm_num),
                  acc_fold (show (0:ℚ) < 50400 - 12400 by norm_num),
                  acc_fold (show (0:ℚ) < 105700 - 50400 by norm_num),
                  acc_fold (show (0:ℚ) < 201775 - 105700 by norm_num),
                  acc_fold (show (0:ℚ) < 256225 - 201775 by norm_num),
                  acc_fold (show (0:ℚ) < 640600 - 256225 by norm_num),
                  if_pos (show x - 640600 > 0 by linarith)]
                ring

/-- The ordinary tax is monotonically non-decreasing. -/
theorem ordinary_tax_mono {x y : ℚ} (hxy : x ≤ y) :
    ordinary_tax_on_amount x ≤ ordinary_tax_on_amount y := by
  rw [ordinary_tax_eq_sumForm, ordinary_tax_eq_sumForm]
  have h1 := slice_mono (show (0:ℚ) ≤ 12400 by norm_num) hxy
  have h2 := slice_mono (show (12400:ℚ) ≤ 50400 by norm_num) hxy
  have h3 := slice_mono (show (50400:ℚ) ≤ 105700 by norm_num) hxy
  have h4 := slice_mono (show (105700:ℚ) ≤ 201775 by norm_num) hxy
  have h5 := slice_mono (show (201775:ℚ) ≤ 256225 by norm_num) hxy
  have h6 := slice_mono (show (256225:ℚ) ≤ 640600 by norm_num) hxy
  have h7 := top_slice_mono (640600:ℚ) hxy
  simp only [bracketSumForm]
  linarith

/-- The ordinary tax is Lipschitz with constant 37/100 (the top marginal
rate). -/
theorem ordinary_tax_lipschitz {x y : ℚ} (hxy : x ≤ y) :
    ordinary_tax_on_amount y - ordinary_tax_on_amount x ≤ (37/100) * (y - x) := by
  rw [ordinary_tax_eq_sumForm, ordinary_tax_eq_sumForm]
  have h1 := slice_mono (show (0:ℚ) ≤ 12400 by norm_num) hxy
  have h2 := slice_mono (show (12400:ℚ) ≤ 50400 by norm_num) hxy
  have h3 := slice_mono (show (50400:ℚ) ≤ 105700 by norm_num) hxy
  have h4 := slice_mono (show (105700:ℚ) ≤ 201775 by norm_num) hxy
  have h5 := slice_mono (show (201775:ℚ) ≤ 256225 by norm_num) hxy
  have h6 := slice_mono (show (256225:ℚ) ≤ 640600 by norm_num) hxy
  have h7 := top_slice_mono (640600:ℚ) hxy
  have ht1 := slices_total x
  have ht2 := slices_total y
  have h8 : min x 0 ≤ min y 0 := min_le_min hxy le_rfl
  simp only [bracketSumForm]
  linarith

/-- The ordinary tax is never negative. -/
theorem ordinary_tax_nonneg (x : ℚ) : 0 ≤ ordinary_tax_on_amount x := by
  rw [ordinary_tax_eq_sumForm]
  have h1 := slice_nonneg (show (0:ℚ) ≤ 12400 by norm_num) x
  have h2 := slice_nonneg (show (12400:ℚ) ≤ 50400 by norm_num) x
  have h3 := slice_nonneg (show (50400:ℚ) ≤ 105700 by norm_num) x
  have h4 := slice_nonneg (show (105700:ℚ) ≤ 201775 by norm_num) x
  have h5 := slice_nonneg (show (201775:ℚ) ≤ 256225 by norm_num) x
  have h6 := slice_nonneg (show (256225:ℚ) ≤ 640600 by norm_num) x
  have h7 := top_slice_nonneg (640600:ℚ) x
  simp only [bracketSumForm]
  linarith

/-- The ordinary tax is bounded by the top marginal rate times the amount. -/
theorem ordinary_tax_le (x : ℚ) (hx : 0 ≤ x) :
    ordinary_tax_on_amount x ≤ (37/100) * x := by
  rw [ordinary_tax_eq_sumForm]
  have h1 := slice_nonneg (show (0:ℚ) ≤ 12400 by norm_num) x
  have h2 := slice_nonneg (show (12400:ℚ) ≤ 50400 by norm_num) x
  have h3 := slice_nonneg (show (50400:ℚ) ≤ 105700 by norm_num) x
  have h4 := slice_nonneg (show (105700:ℚ) ≤ 201775 by norm_num) x
  have h5 := slice_nonneg (show (201775:ℚ) ≤ 256225 by norm_num) x
  have h6 := slice_nonneg (show (256225:ℚ) ≤ 640600 by norm_num) x
  have h7 := top_slice_nonneg (640600:ℚ) x
  have ht := slices_total x
  have h8 : min x 0 = 0 := min_eq_right hx
  simp only [bracketSumForm]
  linarith

/-- Claim C3: ordinary_tax_on_amount is continuous (epsilon-delta over ℚ) and
monotonically non-decreasing on the non-negative axis; each bracket taxes only
the slice of income within its bounds at its marginal rate (the sum-of-slices
characterization); and at every bracket upper bound the tax equals exactly the
sum of width times marginal rate over the fully-filled lower brackets, with no
off-by-one double taxation at boundaries. -/
theorem C3_ordinary_tax_properties :
    (∀ x : ℚ, ordinary_tax_on_amount x = bracketSumForm x) ∧
    (∀ x y : ℚ, 0 ≤ x → x ≤ y →
      ordinary_tax_on_amount x ≤ ordinary_tax_on_amount y) ∧
    (∀ x y : ℚ, 0 ≤ x → x ≤ y →
      ordinary_tax_on_amount y - ordinary_tax_on_amount x ≤ (37/100) * (y - x)) ∧
    (∀ x ε : ℚ, 0 ≤ x → 0 < ε → ∃ δ : ℚ, 0 < δ ∧ ∀ y : ℚ,
      |y - x| < δ → |ordinary_tax_on_amount y - ordinary_tax_on_amount x| < ε) ∧
    ordinary_tax_on_amount 12400 = 12400 * (1/10) ∧
    ordinary_tax_on_amount 50400 = 12400 * (1/10) + (50400 - 12400) * (12/100) ∧
    ordinary_tax_on_amount 105700 = 12400 * (1/10) + (50400 - 12400) * (12/100)
      + (105700 - 50400) * (22/100) ∧
    ordinary_tax_on_amount 201775 = 12400 * (1/10) + (50400 - 12400) * (12/100)
      + (105700 - 50400) * (22/100) + (201775 - 105700) * (24/100) ∧
    ordinary_tax_on_amount 256225 = 12400 * (1/10) + (50400 - 12400) * (12/100)
      + (105700 - 50400) * (22/100) + (201775 - 105700) * (24/100)
      + (256225 - 201775) * (32/100) ∧
    ordinary_tax_on_amount 640600 = 12400 * (1/10) + (50400 - 12400) * (12/100)
      + (105700 - 50400) * (22/100) + (201775 - 105700) * (24/100)
      + (256225 - 201775) * (32/100) + (640600 - 256225) * (35/100) := by
  refine ⟨ordinary_tax_eq_sumForm, fun x y _ h => ordinary_tax_mono h,
    fun x y _ h => ordinary_tax_lipschitz h, ?_, ?_, ?_, ?_, ?_, ?_, ?_⟩
  · intro x ε _ hε
    refine ⟨ε, hε, fun y hy => ?_⟩
    rw [abs_lt] at hy ⊢
    rcases le_total x y with hxy | hxy
    · have h1 := ordinary_tax_mono hxy
      have h2 := ordinary_tax_lipschitz hxy
      constructor <;> linarith
    · have h1 := ordinary_tax_mono hxy
      have h2 := ordinary_tax_lipschitz hxy
      constructor <;> linarith
  all_goals norm_num [ordinary_tax_on_amount, taxLoop, ORDINARY_BRACKETS, min_def, max_def]

/-- Witness for C3: monotonicity applied at 100 ≤ 200 and continuity at 12400
with tolerance 1. -/
theorem C3_witness :
    ordinary_tax_on_amount 100 ≤ ordinary_tax_on_amount 200 ∧
    ∃ δ : ℚ, 0 < δ ∧ ∀ y : ℚ, |y - 12400| < δ →
      |ordinary_tax_on_amount y - ordinary_tax_on_amount 12400| < 1 :=
  ⟨C3_ordinary_tax_properties.2.1 100 200 (by norm_num) (by norm_num),
   C3_ordinary_tax_properties.2.2.2.1 12400 1 (by norm_num) (by norm_num)⟩

/-- Claim C1 as stated is refuted at two concrete inputs.  With ordinary
income 30000 and ss_monthly 1000 (provisional 36000, top band) the code yields
2550 while the claimed min-formula yields 6200; with ordinary income 30000 and
ss_monthly 100 (provisional 30600, middle band) the code yields 2800, which
exceeds the claimed global cap 0.85 x ss_annual = 1020. -/
theorem C1_counterexample :
    taxable_social_security 30000 (1000 * 12) = 2550 ∧
    min ((85/100) * (1000 * 12 : ℚ))
        ((85/100) * ((30000 + (1/2) * (1000 * 12)) - 34000) + (1/2) * 9000) = 6200 ∧
    (2550 : ℚ) ≠ 6200 ∧
    taxable_social_security 30000 (100 * 12) = 2800 ∧
    ¬ taxable_social_security 30000 (100 * 12) ≤ (85/100) * (100 * 12) := by
  norm_num [taxable_social_security, min_def, max_def]

/-- Claim C1 amended: for non-negative inputs the taxable Social Security
amount is 0 when ss_annual = 0 or provisional ≤ 25000, is half the excess over
25000 in the middle band (with no cap at 0.85 x ss_annual there), and in the
top band equals 0.85 x ss_annual - 7650 regardless of provisional (which never
exceeds 0.85 x ss_annual, but can be negative). -/
theorem C1_taxable_ss_amended (ordinary ss_monthly : ℚ)
    (hord : 0 ≤ ordinary) (hss : 0 ≤ ss_monthly) :
    (ss_monthly * 12 = 0 → taxable_social_security ordinary (ss_monthly * 12) = 0) ∧
    (ordinary + (1/2) * (ss_monthly * 12) ≤ 25000 →
      taxable_social_security ordinary (ss_monthly * 12) = 0) ∧
    (0 < ss_monthly * 12 → 25000 < ordinary + (1/2) * (ss_monthly * 12) →
      ordinary + (1/2) * (ss_monthly * 12) ≤ 34000 →
      taxable_social_security ordinary (ss_monthly * 12)
        = (1/2) * (ordinary + (1/2) * (ss_monthly * 12) - 25000)) ∧
    (0 < ss_monthly * 12 → 34000 < ordinary + (1/2) * (ss_monthly * 12) →
      taxable_social_security ordinary (ss_monthly * 12)
          = (85/100) * (ss_monthly * 12) - 7650 ∧
      taxable_social_security ordinary (ss_monthly * 12)
          ≤ (85/100) * (ss_monthly * 12)) := by
  refine ⟨fun h0 => ?_, fun h25 => ?_, fun hp h25 h34 => ?_, fun hp h34 => ?_⟩
  · simp [taxable_social_security, h0]
  · rcases le_or_lt (ss_monthly * 12) 0 with h | h
    · simp [taxable_social_security, if_pos h]
    · rw [taxable_social_security, if_neg (by linarith), if_pos h25]
  · rw [taxable_social_security, if_neg (by linarith), if_neg (by linarith), if_pos h34]
  · rw [taxable_social_security, if_neg (by linarith), if_neg (by linarith),
      if_neg (by linarith)]
    rw [max_eq_right (by norm_num : (0:ℚ) ≤ (85/100) * (34000 - 25000)),
      min_eq_left (by norm_num : (85/100) * (ss_monthly * 12) - (85/100) * (34000 - 25000)
        ≤ (85/100) * (ss_monthly * 12))]
    constructor <;> [linarith; linarith]

/-- Witness for C1: ordinary 30000, ss_monthly 1000 lands in the top band and
yields 0.85 x 12000 - 7650 = 2550. -/
theorem C1_witness :
    taxable_social_security 30000 (1000 * 12) = (85/100) * (1000 * 12) - 7650 :=
  ((C1_taxable_ss_amended 30000 1000 (by norm_num) (by norm_num)).2.2.2
    (by norm_num) (by norm_num)).1

/-- Claim C10: in the top provisional band the code's taxable Social Security
amount equals exactly 0.85 x ss_annual - 7650 independent of provisional; it
is strictly negative whenever ss_annual < 9000; and the engine feeds
taxable_ordinary + ss_taxable (thus reduced when ss_taxable is negative) into
the after-deduction bracket amount. -/
theorem C10_top_band_formula :
    (∀ ordinary ss_annual : ℚ, 0 < ss_annual →
      34000 < ordinary + (1/2) * ss_annual →
      taxable_social_security ordinary ss_annual = (85/100) * ss_annual - 7650 ∧
      (ss_annual < 9000 → taxable_social_security ordinary ss_annual < 0)) ∧
    (∀ d bo q g ssm : ℚ,
      (compute_tax d bo q g ssm).taxable_ordinary_with_ss
        = (d + bo) + taxable_social_security (d + bo) (ssm * 12) ∧
      (compute_tax d bo q g ssm).ordinary_after_deduction
        = max 0 ((d + bo) + taxable_social_security (d + bo) (ssm * 12)
            - STANDARD_DEDUCTION) ∧
      (compute_tax d bo q g ssm).ordinary_tax
        = ordinary_tax_on_amount ((compute_tax d bo q g ssm).ordinary_after_deduction)) ∧
    (∀ d bo q g ssm : ℚ, taxable_social_security (d + bo) (ssm * 12) < 0 →
      (compute_tax d bo q g ssm).taxable_ordinary_with_ss
        < (compute_tax d bo q g ssm).taxable_ordinary) := by
  refine ⟨fun ordinary ss_annual hp h34 => ?_, fun d bo q g ssm => ⟨rfl, rfl, rfl⟩,
    fun d bo q g ssm hneg => ?_⟩
  · have heq : taxable_social_security ordinary ss_annual
        = (85/100) * ss_annual - 7650 := by
      rw [taxable_social_security, if_neg (by linarith), if_neg (by linarith),
        if_neg (by linarith)]
      rw [max_eq_right (by norm_num : (0:ℚ) ≤ (85/100) * (34000 - 25000)),
        min_eq_left (by norm_num : (85/100) * ss_annual - (85/100) * (34000 - 25000)
          ≤ (85/100) * ss_annual)]
      norm_num
    exact ⟨heq, fun h9 => by rw [heq]; linarith⟩
  · simp only [compute_tax]
    linarith

/-- Witness for C10: ordinary 40000 with ss_annual 6000 (ss_monthly 500) gives
taxable Social Security 5100 - 7650 = -2550 < 0. -/
theorem C10_witness :
    taxable_social_security 40000 6000 = (85/100) * 6000 - 7650 ∧
    taxable_social_security 40000 6000 < 0 :=
  ⟨(C10_top_band_formula.1 40000 6000 (by norm_num) (by norm_num)).1,
   (C10_top_band_formula.1 40000 6000 (by norm_num) (by norm_num)).2 (by norm_num)⟩

/-- Spec-side comparison definition, written from the spec's wording of steps
5-6 (to be proved equal to the code's capital_gains_tax_for_qualified): stack
the preferential amount on the baseline, fill a 0 percent band of capacity
max(0, cg_0pct_limit - baseline), then a 15 percent band of capacity
max(0, cg_15pct_limit - (baseline + amount placed in the 0 percent band)), and
tax the remainder at 20 percent. -/
def bandFillTax (baseline amount : ℚ) : ℚ :=
  let placed0 := min amount (max 0 (CG_0pct_limit_single - baseline))
  let placed15 :=
    min (amount - placed0) (max 0 (CG_15pct_limit_single - (baseline + placed0)))
  placed15 * (15/100) + (amount - placed0 - placed15) * (20/100)

/-- The code's band filler agrees with the spec's band-fill description for
non-negative amounts. -/
theorem capital_gains_tax_eq_bandFill (Q O : ℚ) (hQ : 0 ≤ Q) :
    capital_gains_tax_for_qualified Q O = bandFillTax O Q := by
  simp only [capital_gains_tax_for_qualified, bandFillTax]
  set cap0 := max 0 (CG_0pct_limit_single - O) with hcap0def
  set t0 := min Q cap0 with ht0def
  set cap15 := max 0 (CG_15pct_limit_single - (O + t0)) with hcap15def
  set t15 := min (Q - t0) cap15 with ht15def
  have h1 : (0:ℚ) ≤ cap0 := le_max_left _ _
  have h2 : t0 ≤ Q := min_le_left _ _
  have h3 : (0:ℚ) ≤ t0 := le_min hQ h1
  have h4 : (0:ℚ) ≤ cap15 := le_max_left _ _
  have h5 : t15 ≤ Q - t0 := min_le_left _ _
  have h6 : (0:ℚ) ≤ t15 := le_min (by linarith) h4
  split_ifs with ha hb
  · have e2 : Q - t0 - t15 = 0 := by linarith
    have e1 : t15 = 0 := by linarith
    rw [e2, e1]
    ring
  · ring
  · have e2 : Q - t0 - t15 = 0 := le_antisymm (not_lt.mp hb) (by linarith)
    rw [e2]
    ring

/-- Claim C2: for non-negative baseline and amounts, the qualified-dividend
tax is the three-band stack on the after-deduction ordinary income and the
capital-gains tax is the same three-band stack with baseline shifted up by the
qualified dividends; at O = 45000, Q = 20000 the qualified-dividend tax is
4450 at 0 percent plus 15550 at 15 percent, i.e. 2332.50. -/
theorem C2_preferential_stacking :
    (∀ O Q : ℚ, 0 ≤ O → 0 ≤ Q →
      capital_gains_tax_for_qualified Q O = bandFillTax O Q) ∧
    (∀ O Q G : ℚ, 0 ≤ O → 0 ≤ Q → 0 ≤ G →
      capital_gains_tax_for_qualified G (O + Q) = bandFillTax (O + Q) G) ∧
    (∀ d bo q g ssm : ℚ,
      (compute_tax d bo q g ssm).qualified_dividend_tax
        = capital_gains_tax_for_qualified q
            (compute_tax d bo q g ssm).ordinary_after_deduction ∧
      (compute_tax d bo q g ssm).capital_gains_tax_amount
        = capital_gains_tax_for_qualified g
            ((compute_tax d bo q g ssm).ordinary_after_deduction + q)) ∧
    capital_gains_tax_for_qualified 20000 45000 = 2332.5 ∧
    (2332.5 : ℚ) = 4450 * 0 + 15550 * (15/100) := by
  refine ⟨fun O Q _ hQ => capital_gains_tax_eq_bandFill Q O hQ,
    fun O Q G _ _ hG => capital_gains_tax_eq_bandFill G (O + Q) hG,
    fun d bo q g ssm => ⟨rfl, rfl⟩, ?_, by norm_num⟩
  norm_num [capital_gains_tax_for_qualified, CG_0pct_limit_single,
    CG_15pct_limit_single, min_def, max_def]

/-- Witness for C2: the band-fill agreement applied at O = 45000, Q = 20000. -/
theorem C2_witness :
    capital_gains_tax_for_qualified 20000 45000 = bandFillTax 45000 20000 :=
  C2_preferential_stacking.1 45000 20000 (by norm_num) (by norm_num)

/-- Claim C4: the after-deduction ordinary income is
max(0, ordinary taxable income - standard deduction); the preferential-rate
computation takes the possibly-zero after-deduction income as its baseline
with the qualified and capital-gains amounts unreduced, even when the
deduction exceeds the ordinary income. -/
theorem C4_deduction_policy (d bo q g ssm : ℚ) :
    (compute_tax d bo q g ssm).ordinary_after_deduction
      = max 0 ((compute_tax d bo q g ssm).taxable_ordinary_with_ss
          - STANDARD_DEDUCTION) ∧
    (compute_tax d bo q g ssm).qualified_dividend_tax
      = capital_gains_tax_for_qualified q
          (compute_tax d bo q g ssm).ordinary_after_deduction ∧
    (compute_tax d bo q g ssm).capital_gains_tax_amount
      = capital_gains_tax_for_qualified g
          ((compute_tax d bo q g ssm).ordinary_after_deduction + q) ∧
    ((compute_tax d bo q g ssm).taxable_ordinary_with_ss < STANDARD_DEDUCTION →
      (compute_tax d bo q g ssm).ordinary_after_deduction = 0 ∧
      (compute_tax d bo q g ssm).qualified_dividend_tax
        = capital_gains_tax_for_qualified q 0 ∧
      (compute_tax d bo q g ssm).capital_gains_tax_amount
        = capital_gains_tax_for_qualified g (0 + q)) := by
  refine ⟨rfl, rfl, rfl, fun hlt => ?_⟩
  have h0 : (compute_tax d bo q g ssm).ordinary_after_deduction = 0 := by
    simp only [compute_tax] at hlt ⊢
    rw [max_eq_left (by linarith)]
  refine ⟨h0, ?_, ?_⟩
  · show capital_gains_tax_for_qualified q
        (compute_tax d bo q g ssm).ordinary_after_deduction
      = capital_gains_tax_for_qualified q 0
    rw [h0]
  · show capital_gains_tax_for_qualified g
        ((compute_tax d bo q g ssm).ordinary_after_deduction + q)
      = capital_gains_tax_for_qualified g (0 + q)
    rw [h0]

/-- Witness for C4: with all buckets zero the ordinary income is below the
deduction and the preferential baselines collapse to zero. -/
theorem C4_witness :
    (compute_tax 0 0 5 7 0).ordinary_after_deduction = 0 ∧
    (compute_tax 0 0 5 7 0).qualified_dividend_tax
      = capital_gains_tax_for_qualified 5 0 ∧
    (compute_tax 0 0 5 7 0).capital_gains_tax_amount
      = capital_gains_tax_for_qualified 7 (0 + 5) :=
  (C4_deduction_policy 0 0 5 7 0).2.2.2
    (by norm_num [compute_tax, taxable_social_security, STANDARD_DEDUCTION])

/-- Preferential tax is never negative. -/
theorem capital_gains_tax_nonneg (q o : ℚ) :
    0 ≤ capital_gains_tax_for_qualified q o := by
  simp only [capital_gains_tax_for_qualified]
  set cap0 := max 0 (CG_0pct_limit_single - o) with hcap0def
  set t0 := min q cap0 with ht0def
  set cap15 := max 0 (CG_15pct_limit_single - (o + t0)) with hcap15def
  set t15 := min (q - t0) cap15 with ht15def
  have h4 : (0:ℚ) ≤ cap15 := le_max_left _ _
  split_ifs with ha hb
  · exact le_rfl
  all_goals {
    have h1 : (0:ℚ) ≤ cap0 := le_max_left _ _
    have h2 : t0 ≤ q := min_le_left _ _
    have h3 : (0:ℚ) ≤ t0 := le_min (by linarith) h1
    have h6 : (0:ℚ) ≤ t15 := le_min (by linarith) h4
    nlinarith }

/-- Preferential tax is at most 20 percent of a non-negative amount. -/
theorem capital_gains_tax_le (q o : ℚ) (hq : 0 ≤ q) :
    capital_gains_tax_for_qualified q o ≤ (20/100) * q := by
  simp only [capital_gains_tax_for_qualified]
  set cap0 := max 0 (CG_0pct_limit_single - o) with hcap0def
  set t0 := min q cap0 with ht0def
  set cap15 := max 0 (CG_15pct_limit_single - (o + t0)) with hcap15def
  set t15 := min (q - t0) cap15 with ht15def
  have h1 : (0:ℚ) ≤ cap0 := le_max_left _ _
  have h2 : t0 ≤ q := min_le_left _ _
  have h3 : (0:ℚ) ≤ t0 := le_min hq h1
  have h4 : (0:ℚ) ≤ cap15 := le_max_left _ _
  have h5 : t15 ≤ q - t0 := min_le_left _ _
  have h6 : (0:ℚ) ≤ t15 := le_min (by linarith) h4
  split_ifs with ha hb <;> linarith

/-- With non-negative ordinary income and benefit, the ordinary income plus
the taxable Social Security amount is non-negative (the negative top-band
output is always dominated by the large ordinary income that band needs). -/
theorem ord_plus_ss_taxable_nonneg (ord ss : ℚ) (hord : 0 ≤ ord) (hss : 0 ≤ ss) :
    0 ≤ ord + taxable_social_security ord ss := by
  simp only [taxable_social_security]
  split_ifs with h1 h2 h3
  · linarith
  · linarith
  · linarith
  · push_neg at h1 h2 h3
    rw [max_eq_right (by norm_num : (0:ℚ) ≤ (85/100) * (34000 - 25000)),
      min_eq_left (by norm_num : (85/100) * ss - (85/100) * (34000 - 25000)
        ≤ (85/100) * ss)]
    linarith

/-- The total federal tax is non-negative and at most 37 percent of the
taxable withdrawals denominator. -/
theorem federal_tax_bounds (ord q g tss : ℚ) (hq : 0 ≤ q) (hg : 0 ≤ g)
    (hot : 0 ≤ ord + tss) :
    0 ≤ ordinary_tax_on_amount (max 0 (ord + tss - STANDARD_DEDUCTION))
        + (capital_gains_tax_for_qualified q (max 0 (ord + tss - STANDARD_DEDUCTION))
          + capital_gains_tax_for_qualified g
              (max 0 (ord + tss - STANDARD_DEDUCTION) + q)) ∧
    ordinary_tax_on_amount (max 0 (ord + tss - STANDARD_DEDUCTION))
        + (capital_gains_tax_for_qualified q (max 0 (ord + tss - STANDARD_DEDUCTION))
          + capital_gains_tax_for_qualified g
              (max 0 (ord + tss - STANDARD_DEDUCTION) + q))
      ≤ (37/100) * (ord + q + g + tss) := by
  have hafter0 : (0:ℚ) ≤ max 0 (ord + tss - STANDARD_DEDUCTION) := le_max_left _ _
  have hafter_le : max 0 (ord + tss - STANDARD_DEDUCTION) ≤ ord + tss :=
    max_le hot (by simp only [STANDARD_DEDUCTION]; linarith)
  have hord_tax := ordinary_tax_le _ hafter0
  have hord_tax0 := ordinary_tax_nonneg (max 0 (ord + tss - STANDARD_DEDUCTION))
  have hq_tax := capital_gains_tax_le q (max 0 (ord + tss - STANDARD_DEDUCTION)) hq
  have hq_tax0 := capital_gains_tax_nonneg q (max 0 (ord + tss - STANDARD_DEDUCTION))
  have hg_tax := capital_gains_tax_le g (max 0 (ord + tss - STANDARD_DEDUCTION) + q) hg
  have hg_tax0 := capital_gains_tax_nonneg g (max 0 (ord + tss - STANDARD_DEDUCTION) + q)
  constructor <;> linarith

/-- Claim C8: the effective rate is total federal tax over the sum of the
taxable withdrawal buckets (deferred + brokerage ordinary + qualified +
capital gains + taxable Social Security, Roth excluded), defined as 0 when
the denominator is not positive, and lies in the unit interval for
non-negative inputs. -/
theorem C8_effective_rate (d bo q g ssm : ℚ) (hd : 0 ≤ d) (hbo : 0 ≤ bo)
    (hq : 0 ≤ q) (hg : 0 ≤ g) (hssm : 0 ≤ ssm) :
    (compute_tax d bo q g ssm).taxable_withdrawals_annual
      = d + bo + q + g + (compute_tax d bo q g ssm).ss_taxable ∧
    (compute_tax d bo q g ssm).effective_rate
      = (if (compute_tax d bo q g ssm).taxable_withdrawals_annual > 0 then
          (compute_tax d bo q g ssm).federal_tax
            / (compute_tax d bo q g ssm).taxable_withdrawals_annual
        else 0) ∧
    ((compute_tax d bo q g ssm).taxable_withdrawals_annual = 0 →
      (compute_tax d bo q g ssm).effective_rate = 0) ∧
    0 ≤ (compute_tax d bo q g ssm).effective_rate ∧
    (compute_tax d bo q g ssm).effective_rate ≤ 1 := by
  have htss : 0 ≤ (d + bo) + taxable_social_security (d + bo) (ssm * 12) :=
    ord_plus_ss_taxable_nonneg (d + bo) (ssm * 12) (by linarith) (by linarith)
  obtain ⟨hf0, hf1⟩ :=
    federal_tax_bounds (d + bo) q g (taxable_social_security (d + bo) (ssm * 12)) hq hg htss
  refine ⟨rfl, rfl, fun h0 => ?_, ?_, ?_⟩
  · simp only [compute_tax] at h0 ⊢
    rw [if_neg (by rw [h0]; exact lt_irrefl 0)]
  · simp only [compute_tax]
    split_ifs with hpos
    · exact div_nonneg (by linarith) (by linarith)
    · exact le_refl 0
  · simp only [compute_tax]
    split_ifs with hpos
    · rw [div_le_one hpos]
      linarith
    · norm_num

/-- Witness for C8: with every bucket zero the denominator is zero and the
effective rate is exactly 0, inside the unit interval. -/
theorem C8_witness :
    (compute_tax 0 0 0 0 0).effective_rate = 0 ∧
    0 ≤ (compute_tax 0 0 0 0 0).effective_rate ∧
    (compute_tax 0 0 0 0 0).effective_rate ≤ 1 :=
  ⟨(C8_effective_rate 0 0 0 0 0 le_rfl le_rfl le_rfl le_rfl le_rfl).2.2.1
      (by norm_num [compute_tax, taxable_social_security]),
   (C8_effective_rate 0 0 0 0 0 le_rfl le_rfl le_rfl le_rfl le_rfl).2.2.2.1,
   (C8_effective_rate 0 0 0 0 0 le_rfl le_rfl le_rfl le_rfl le_rfl).2.2.2.2⟩

/-- Claim C5 amended: the standalone helper infer_dividend_type follows the
history rule (non-empty history means qualified, otherwise ordinary), but the
estimator's own resolution, for a holding with no explicit dividend_tax_type,
keys on the presence of a yield override: ordinary when an override is
present, qualified otherwise, independent of the dividend history. -/
theorem C5_dividend_type_amended :
    (∀ l : List (ℚ × ℚ), infer_dividend_type (some l)
        = if l.isEmpty then "ordinary" else "qualified") ∧
    infer_dividend_type none = "ordinary" ∧
    (∀ y : ℚ, resolve_dividend_tax_type none (some y) = "ordinary") ∧
    resolve_dividend_tax_type none none = "qualified" :=
  ⟨fun _ => rfl, rfl, fun _ => rfl, rfl⟩

/-- Claim C5 as stated is refuted: a brokerage holding with no explicit
dividend_tax_type and a non-empty dividend history, but carrying a yield
override, is routed to the brokerage-ordinary bucket (income 200), while the
claim's history rule would make it qualified. -/
theorem C5_counterexample :
    row_contrib_info ⟨some 50, [(0, 1)]⟩ 20 10 ⟨"abc", "brokerage", 100, some 4, none⟩
      = .ok ⟨0, 200, 0, 0, 0⟩ ∧
    ([((0:ℚ), (1:ℚ))] : List (ℚ × ℚ)).isEmpty = false ∧
    Buckets.brokerage_qualified ⟨0, 200, 0, 0, 0⟩ = 0 ∧
    Buckets.brokerage_ordinary ⟨0, 200, 0, 0, 0⟩ = 200 := by
  refine ⟨?_, by decide, rfl, rfl⟩
  have h1 : strLower (strStrip "brokerage") = "brokerage" := by decide
  have h2 : resolve_dividend_tax_type none (some 4) = "ordinary" := by decide
  simp only [row_contrib_info, h1, h2]
  norm_num
  rw [if_neg (show ¬ ("brokerage":String) = "deferred" by decide),
    if_neg (show ¬ ("ordinary":String) = "qualified" by decide),
    if_neg (show ¬ ("ordinary":String) = "capital_gains" by decide)]

/-- Claim C6 amended: the price comes solely from the lookup (there is no
per-holding price override field); a missing looked-up price is fatal with the
fetch error; and a looked-up price of 0 is silently replaced by 1.0 — the
holding computes exactly as if the price were 1. -/
theorem C6_price_resolution_amended :
    (∀ info : TickerInfo, ∀ t2 t1 : ℚ, ∀ r : Row, info.price = none →
      row_contrib_info info t2 t1 r
        = .error ("Could not fetch price for " ++ strUpper (strStrip r.ticker))) ∧
    (∀ hist : List (ℚ × ℚ), ∀ t2 t1 : ℚ, ∀ r : Row,
      row_contrib_info ⟨some 0, hist⟩ t2 t1 r
        = row_contrib_info ⟨some 1, hist⟩ t2 t1 r) := by
  constructor
  · intro info t2 t1 r h
    simp only [row_contrib_info, h]
  · intro hist t2 t1 r
    have hp0 : (if (0:ℚ) = 0 then (1:ℚ) else 0) = 1 := by norm_num
    have hp1 : (if (1:ℚ) = 0 then (1:ℚ) else 1) = 1 := by norm_num
    simp only [row_contrib_info, hp0, hp1, ite_true, ite_self]

/-- Witness for C6: a holding whose lookup has no price fails with the fetch
error for its upper-cased ticker. -/
theorem C6_witness :
    row_contrib_info ⟨none, []⟩ 0 0 ⟨"spy", "roth", 1, none, none⟩
      = .error ("Could not fetch price for " ++ strUpper (strStrip "spy")) :=
  C6_price_resolution_amended.1 ⟨none, []⟩ 0 0 ⟨"spy", "roth", 1, none, none⟩ rfl

/-- Claim C6 as stated is refuted: a looked-up price of 0 is accepted (the
holding is processed with price 1.0 and lands in the ordinary bucket), rather
than making the holding unprocessable. -/
theorem C6_counterexample :
    row_contrib_info ⟨some 0, []⟩ 0 0 ⟨"cash", "brokerage", 10, some 5, none⟩
      = .ok ⟨0, 1/2, 0, 0, 0⟩ := by
  have h1 : strLower (strStrip "brokerage") = "brokerage" := by decide
  have h2 : resolve_dividend_tax_type none (some 5) = "ordinary" := by decide
  simp only [row_contrib_info, h1, h2]
  norm_num
  rw [if_neg (show ¬ ("brokerage":String) = "deferred" by decide),
    if_neg (show ¬ ("ordinary":String) = "qualified" by decide),
    if_neg (show ¬ ("ordinary":String) = "capital_gains" by decide)]

/-- Claim C7 amended: the engine performs no negativity validation. A
non-positive preferential amount is simply taxed at 0, and a negative flat
additional LTCG amount flows into the capital-gains bucket and the
computation returns a TaxResult rather than failing. -/
theorem C7_no_negative_bucket_check :
    (∀ q o : ℚ, q ≤ 0 → capital_gains_tax_for_qualified q o = 0) ∧
    (∀ lookup : String → TickerInfo, ∀ t2 t1 ltcg ssm : ℚ,
      estimate_with_lookup lookup t2 t1 ltcg ssm []
        = .ok (compute_tax 0 0 0 ltcg ssm)) := by
  constructor
  · intro q o h
    simp only [capital_gains_tax_for_qualified, if_pos h]
  · intro lookup t2 t1 ltcg ssm
    rfl

/-- Witness for C7: a negative preferential amount is taxed at 0. -/
theorem C7_witness : capital_gains_tax_for_qualified (-5) 3 = 0 :=
  C7_no_negative_bucket_check.1 (-5) 3 (by norm_num)

/-- Claim C7 as stated is refuted: with additional LTCG -1000 the computation
returns a result (federal tax 0, taxable withdrawals -1000) instead of
failing with any invalid-bucket error. -/
theorem C7_counterexample :
    estimate_with_lookup (fun _ => ⟨none, []⟩) 0 0 (-1000) 0 []
      = .ok (compute_tax 0 0 0 (-1000) 0) ∧
    (compute_tax 0 0 0 (-1000) 0).federal_tax = 0 ∧
    (compute_tax 0 0 0 (-1000) 0).taxable_withdrawals_annual = -1000 := by
  refine ⟨rfl, ?_, ?_⟩
  · norm_num [compute_tax, taxable_social_security, capital_gains_tax_for_qualified,
      ordinary_tax_on_amount, STANDARD_DEDUCTION, min_def, max_def]
  · norm_num [compute_tax, taxable_social_security, min_def, max_def]

/-! Permutation invariance of classification. -/

theorem Buckets.add_mk (a1 a2 a3 a4 a5 b1 b2 b3 b4 b5 : ℚ) :
    (⟨a1, a2, a3, a4, a5⟩ : Buckets) + ⟨b1, b2, b3, b4, b5⟩
      = ⟨a1 + b1, a2 + b2, a3 + b3, a4 + b4, a5 + b5⟩ := rfl

theorem Buckets.addComm (a b : Buckets) : a + b = b + a := by
  cases a; cases b
  simp only [Buckets.add_mk, Buckets.mk.injEq]
  refine ⟨?_, ?_, ?_, ?_, ?_⟩ <;> ring

theorem Buckets.addAssoc (a b c : Buckets) : a + b + c = a + (b + c) := by
  cases a; cases b; cases c
  simp only [Buckets.add_mk, Buckets.mk.injEq]
  refine ⟨?_, ?_, ?_, ?_, ?_⟩ <;> ring

theorem classifyAux_cons_error (lookup : String → TickerInfo) (t2 t1 : ℚ) {r : Row}
    {e : String} (rest : List Row) (b : Buckets)
    (hc : row_contrib lookup t2 t1 r = .error e) :
    classifyAux lookup t2 t1 (r :: rest) b = .error e := by
  simp [classifyAux, hc]

theorem classifyAux_cons_ok (lookup : String → TickerInfo) (t2 t1 : ℚ) {r : Row}
    {c : Buckets} (rest : List Row) (b : Buckets)
    (hc : row_contrib lookup t2 t1 r = .ok c) :
    classifyAux lookup t2 t1 (r :: rest) b = classifyAux lookup t2 t1 rest (b + c) := by
  simp [classifyAux, hc]

/-- Classification is invariant under permutation of the holdings: any
permutation of a successfully classified list classifies to the same
buckets. -/
theorem classifyAux_perm (lookup : String → TickerInfo) (t2 t1 : ℚ)
    {l l' : List Row} (hp : l.Perm l') :
    ∀ b res, classifyAux lookup t2 t1 l b = .ok res →
      classifyAux lookup t2 t1 l' b = .ok res := by
  induction hp with
  | nil => exact fun b res h => h
  | cons x hp ih =>
    intro b res h
    cases hc : row_contrib lookup t2 t1 x with
    | error e =>
      rw [classifyAux_cons_error lookup t2 t1 _ b hc] at h
      exact absurd h (by simp)
    | ok c =>
      rw [classifyAux_cons_ok lookup t2 t1 _ b hc] at h
      rw [classifyAux_cons_ok lookup t2 t1 _ b hc]
      exact ih _ _ h
  | swap x y l =>
    intro b res h
    cases hy : row_contrib lookup t2 t1 y with
    | error e =>
      rw [classifyAux_cons_error lookup t2 t1 _ b hy] at h
      exact absurd h (by simp)
    | ok cy =>
      cases hx : row_contrib lookup t2 t1 x with
      | error e =>
        rw [classifyAux_cons_ok lookup t2 t1 _ b hy,
          classifyAux_cons_error lookup t2 t1 _ (b + cy) hx] at h
        exact absurd h (by simp)
      | ok cx =>
        rw [classifyAux_cons_ok lookup t2 t1 _ b hy,
          classifyAux_cons_ok lookup t2 t1 _ (b + cy) hx] at h
        rw [classifyAux_cons_ok lookup t2 t1 _ b hx,
          classifyAux_cons_ok lookup t2 t1 _ (b + cx) hy]
        have hacc : b + cy + cx = b + cx + cy := by
          rw [Buckets.addAssoc, Buckets.addAssoc, Buckets.addComm cy cx]
        rw [← hacc]
        exact h
  | trans _ _ ih1 ih2 => exact fun b res h => ih2 _ _ (ih1 _ _ h)

/-- Claim C9: classification is a pure function whose bucket merging is plain
addition — any permutation of the holdings that classifies successfully gives
the identical buckets and the identical TaxResult — and re-running the whole
estimate on identical inputs (same lookup result) yields an identical
result. -/
theorem C9_permutation_and_determinism :
    (∀ lookup : String → TickerInfo, ∀ t2 t1 ltcg : ℚ, ∀ rows rows' : List Row,
      rows.Perm rows' → ∀ b, classify lookup t2 t1 ltcg rows = .ok b →
        classify lookup t2 t1 ltcg rows' = .ok b) ∧
    (∀ lookup : String → TickerInfo, ∀ t2 t1 ltcg ssm : ℚ, ∀ rows rows' : List Row,
      rows.Perm rows' → ∀ res,
        estimate_with_lookup lookup t2 t1 ltcg ssm rows = .ok res →
        estimate_with_lookup lookup t2 t1 ltcg ssm rows' = .ok res) ∧
    (∀ lookup : String → TickerInfo, ∀ t2 t1 ltcg ssm : ℚ, ∀ rows : List Row,
      estimate_with_lookup lookup t2 t1 ltcg ssm rows
        = estimate_with_lookup lookup t2 t1 ltcg ssm rows) := by
  have hcl : ∀ lookup : String → TickerInfo, ∀ t2 t1 ltcg : ℚ, ∀ rows rows' : List Row,
      rows.Perm rows' → ∀ b, classify lookup t2 t1 ltcg rows = .ok b →
        classify lookup t2 t1 ltcg rows' = .ok b :=
    fun lookup t2 t1 ltcg rows rows' hp b h => classifyAux_perm lookup t2 t1 hp _ b h
  refine ⟨hcl, ?_, fun _ _ _ _ _ _ => rfl⟩
  intro lookup t2 t1 ltcg ssm rows rows' hp res h
  simp only [estimate_with_lookup] at h ⊢
  cases hc : classify lookup t2 t1 ltcg rows with
  | error e => rw [hc] at h; exact absurd h (by simp)
  | ok b =>
    rw [hc] at h
    rw [hcl lookup t2 t1 ltcg rows rows' hp b hc]
    exact h

/-- Witness for C9: swapping two concrete holdings yields the same buckets. -/
theorem C9_witness :
    classify (fun _ => ⟨some 2, []⟩) 0 0 0
      [⟨"b", "deferred", 3, some 10, none⟩, ⟨"a", "roth", 1, some 0, none⟩]
      = .ok ⟨3/5, 0, 0, 0, 0⟩ := by
  refine C9_permutation_and_determinism.1 (fun _ => ⟨some 2, []⟩) 0 0 0
    [⟨"a", "roth", 1, some 0, none⟩, ⟨"b", "deferred", 3, some 10, none⟩]
    [⟨"b", "deferred", 3, some 10, none⟩, ⟨"a", "roth", 1, some 0, none⟩]
    (List.Perm.swap _ _ _) ⟨3/5, 0, 0, 0, 0⟩ ?_
  have hA : row_contrib (fun _ => ⟨some 2, []⟩) 0 0 ⟨"a", "roth", 1, some 0, none⟩
      = .ok ⟨0, 0, 0, 0, 0⟩ := by
    have h1 : strLower (strStrip "roth") = "roth" := by decide
    simp only [row_contrib, row_contrib_info, h1]
    norm_num
  have hB : row_contrib (fun _ => ⟨some 2, []⟩) 0 0 ⟨"b", "deferred", 3, some 10, none⟩
      = .ok ⟨3/5, 0, 0, 0, 0⟩ := by
    have h1 : strLower (strStrip "deferred") = "deferred" := by decide
    simp only [row_contrib, row_contrib_info, h1]
    norm_num
  simp only [classify, classifyAux, hA, hB, Buckets.add_mk]
  norm_num

end WithdrawalTax
